import Mathlib

/-!
# Verification of the Virtk MPTCP scheduler family

Shallow embedding of the subflow-scheduling and HoL-blocking-prevention code
of the repository (minrtt.c, blest.h, utils.h, xlayer.c and the unnamed
BLEST scheduler translation unit), together with theorems settling the
frozen claims about it.

Machine integers are modelled as `Nat` (for the kernel's `u32`/`u64`) with
explicit reduction `% 2^32` / `% 2^64` where C overflow semantics matter,
and as `Int` with an explicit 16-bit wrap for the `s16` lambda field.
Host-stack state consumed read-only by the scheduler (socket liveness,
TCP availability predicates, per-path counters) is represented as fields
of the per-subflow record, exactly as the scheduler reads it.
-/

namespace Virtk

/-- The kernel sentinel `U32_MAX`. -/
def U32_MAX : Nat := 2 ^ 32 - 1

/-- Wrap-around subtraction of two `u32` values (`a - b` in C). -/
def u32sub (a b : Nat) : Nat := (a % 2 ^ 32 + 2 ^ 32 - b % 2 ^ 32) % 2 ^ 32

/-- Two's-complement wrap of an integer into the `s16` range. -/
def wrap16 (x : Int) : Int := (x + 2 ^ 15) % 2 ^ 16 - 2 ^ 15

/-- The sentinel `TCP_INFINITE_SSTHRESH` (0x7fffffff), meaning "still in initial slow start". -/
def TCP_INFINITE_SSTHRESH : Nat := 0x7fffffff

/-- Kernel `usecs_to_jiffies` for HZ = 1000 (one jiffy per millisecond, rounded up). -/
def usecs_to_jiffies (us : Nat) : Nat := (us + 999) / 1000

/-- TCP congestion-avoidance machine state (`icsk_ca_state`). -/
inductive CaState where
  | Open | Disorder | CWR | Recovery | Loss
  deriving DecidableEq, Repr

/-- One subflow together with the host-stack TCP state the scheduler reads.

Fields up to `probes_out` feed `mptcp_subflow_is_available`; the Boolean
fields stand for the host-stack predicates the code calls (`ssk != NULL`,
`__mptcp_subflow_active`, `__tcp_can_send`, `sk_stream_memory_free`,
`tcp_packets_in_flight`, `tcp_wnd_end`).  `is_wifi` stands for the
XLayer classifier predicate `xlayer_is_wifi_interface` applied to the
subflow's local address. -/
structure Subflow where
  has_sock : Bool := true
  active : Bool := true
  can_send : Bool := true
  mem_free : Bool := true
  inflight : Nat := 0
  snd_cwnd : Nat := 1
  ca_state : CaState := .Open
  wnd_end : Nat := 1
  snd_nxt : Nat := 0
  probes_out : Nat := 0
  backup : Bool := false
  srtt_us : Nat := 0
  snd_ssthresh : Nat := TCP_INFINITE_SSTHRESH
  mss_cache : Nat := 1
  write_seq : Nat := 0
  snd_una : Nat := 0
  is_wifi : Bool := false
  deriving DecidableEq, Repr

instance : Inhabited Subflow := ⟨{}⟩

/-- Embedding of `mptcp_subflow_is_available` (utils.h): the availability filter. -/
def mptcp_subflow_is_available (sf : Subflow) : Bool :=
  sf.has_sock &&
  sf.active &&
  sf.can_send &&
  sf.mem_free &&
  decide (sf.inflight < sf.snd_cwnd) &&
  !(sf.ca_state == .Loss) &&
  !(sf.ca_state == .Recovery && sf.snd_cwnd ≤ 4) &&
  decide (sf.snd_nxt < sf.wnd_end) &&
  (sf.probes_out == 0)

/-- Embedding of `mptcp_subflow_get_rtt` (utils.h): smoothed RTT `srtt_us >> 3`,
with 0 (never measured) mapped to `U32_MAX`. -/
def mptcp_subflow_get_rtt (sf : Subflow) : Nat :=
  if !sf.has_sock then U32_MAX
  else
    let rtt := sf.srtt_us >>> 3
    if rtt == 0 then U32_MAX else rtt

/-- Loop-body eligibility of `get_minrtt_sock`: all the `continue`
conditions of the scan combined. -/
def minrtt_eligible (use_backup check_send : Bool) (sf : Subflow) : Bool :=
  mptcp_subflow_is_available sf &&
  (!check_send || (sf.has_sock && sf.can_send)) &&
  (use_backup == sf.backup)

/-- The scan of `get_minrtt_sock` (utils.h), carrying the `min_rtt` /
`best_subflow` accumulator pair over the indexed subflow list. -/
def get_minrtt_go (use_backup check_send : Bool) :
    List (Nat × Subflow) → Nat → Option Nat → Nat × Option Nat
  | [], min_rtt, best => (min_rtt, best)
  | (i, sf) :: rest, min_rtt, best =>
    if minrtt_eligible use_backup check_send sf then
      let r := mptcp_subflow_get_rtt sf
      if r < min_rtt then get_minrtt_go use_backup check_send rest r (some i)
      else get_minrtt_go use_backup check_send rest min_rtt best
    else get_minrtt_go use_backup check_send rest min_rtt best

/-- Embedding of `get_minrtt_sock` (utils.h): index of the eligible subflow with
strictly minimal effective RTT, starting from `min_rtt = U32_MAX`. -/
def get_minrtt_sock (subflows : List Subflow) (use_backup check_send : Bool) :
    Option Nat :=
  (get_minrtt_go use_backup check_send subflows.enum U32_MAX none).2

/-- Embedding of `mptcp_select_fallback_subflow` (utils.h): first subflow with a live
socket that is active and can send. -/
def mptcp_select_fallback_subflow (subflows : List Subflow) : Option Nat :=
  (subflows.enum.find? fun p =>
    p.2.has_sock && p.2.active && p.2.can_send).map Prod.fst

/-- Embedding of `__mptcp_sched_minrtt_get_subflow` (utils.h): non-backup minimum-RTT
round, then the backup round. -/
def mptcp_sched_minrtt_inner (subflows : List Subflow) : Option Nat :=
  match get_minrtt_sock subflows false true with
  | some i => some i
  | none => get_minrtt_sock subflows true true

/-! ## BLEST control state, lambda controller and estimators (blest.h / utils.h) -/

/-- Module parameter `lambda` (default 12; divided by 10 for the scaling factor). -/
def lambda_param : Nat := 12

/-- Module parameter `max_lambda` (default 13). -/
def max_lambda : Nat := 13

/-- Module parameter `min_lambda` (default 10). -/
def min_lambda : Nat := 10

/-- Module parameter `dyn_lambda_good` (default 10, i.e. 1%). -/
def dyn_lambda_good : Nat := 10

/-- Module parameter `dyn_lambda_bad` (default 40, i.e. 4%). -/
def dyn_lambda_bad : Nat := 40

/-- Embedding of `BlestConnData` (blest.h): the scheduler control state.  `lambda_1000`
is an `s16` in the source, modelled as `Int` with explicit 16-bit wrap at
the arithmetic that can overflow. -/
structure BlestConnData where
  lambda_1000 : Int
  last_lambda_update : Nat
  min_srtt_us : Nat
  max_srtt_us : Nat
  total_decisions : Nat
  hol_prevented : Nat
  deriving DecidableEq, Repr

/-- Embedding of `mptcp_sched_blest_init` (unnamed BLEST unit): fresh control state,
`kzalloc` zeroes the RTT bounds before the explicit sentinel stores. -/
def mptcp_sched_blest_init : BlestConnData :=
  { lambda_1000 := (lambda_param : Int) * 100
    last_lambda_update := 0
    min_srtt_us := U32_MAX
    max_srtt_us := 0
    total_decisions := 0
    hol_prevented := 0 }

/-- Embedding of `blest_update_lambda` (blest.h): rate-limited adaptive update of
`lambda_1000` from the connection's retransmission marker.
`retrans` models `meta_tp->retrans_stamp != 0`; `srtt_us` is the slow
subflow's `tp->srtt_us`; `now` is `tcp_jiffies32`. -/
def blest_update_lambda (retrans : Bool) (srtt_us now : Nat)
    (g : BlestConnData) : BlestConnData :=
  if u32sub now g.last_lambda_update < usecs_to_jiffies (srtt_us >>> 3) then g
  else
    let l : Int :=
      if retrans then wrap16 (g.lambda_1000 + (dyn_lambda_bad : Int))
      else wrap16 (g.lambda_1000 - (dyn_lambda_good : Int))
    let l := min l ((max_lambda : Int) * 100)
    let l := max l ((min_lambda : Int) * 100)
    { g with lambda_1000 := l, last_lambda_update := now % 2 ^ 32 }

/-- Shared step `avg_rtt = (min_srtt_us + max_srtt_us) / 2` in `u32` arithmetic, the
shared first step of both byte estimators. -/
def blest_avg_rtt (min_srtt_us max_srtt_us : Nat) : Nat :=
  (min_srtt_us + max_srtt_us) % 2 ^ 32 / 2

/-- The `num_rtts` computation of the byte estimators:
`1` when `avg_rtt` is zero, else `time_us / avg_rtt + 1` in `u32`. -/
def blest_num_rtts (time_us avg_rtt : Nat) : Nat :=
  if avg_rtt == 0 then 1 else (time_us / avg_rtt + 1) % 2 ^ 32

/-- Segment-count model shared by the byte estimators: slow-start
geometric doubling capped at 16 RTTs, else the congestion-avoidance
arithmetic-series sum, in `u32` arithmetic. -/
def blest_packets (sf : Subflow) (num_rtts0 : Nat) : Nat :=
  if sf.snd_ssthresh == TCP_INFINITE_SSTHRESH then
    let num_rtts := if num_rtts0 > 16 then 16 else num_rtts0
    sf.snd_cwnd * ((1 <<< num_rtts - 1) % 2 ^ 32) % 2 ^ 32
  else
    let ca_cwnd := max sf.snd_cwnd ((sf.snd_ssthresh + 1) % 2 ^ 32)
    (ca_cwnd + u32sub num_rtts0 1 / 2) % 2 ^ 32 * num_rtts0 % 2 ^ 32

/-- Embedding of `blest_estimate_bytes` (blest.h, the version compiled into the
unnamed BLEST unit and xlayer.c): RTT bounds are both taken as the
path's own `srtt_us`, and the returned value is
`div_u64(((u64)packets) * tp->mss_cache, 1000)` — the multiplication by
`lambda_1000` is commented out in the source. -/
def blest_estimate_bytes (sf : Subflow) (time_us : Nat)
    (_g : BlestConnData) : Nat :=
  let avg_rtt := blest_avg_rtt sf.srtt_us sf.srtt_us
  let num_rtts := blest_num_rtts time_us avg_rtt
  let packets := blest_packets sf num_rtts
  packets * sf.mss_cache % 2 ^ 64 / 1000 % 2 ^ 32

/-- Embedding of `common_estimate_bytes` (utils.h): RTT bounds come from the global
control state and the result is
`div_u64(((u64)packets) * mss * lambda_1000, 1000)`. -/
def common_estimate_bytes (sf : Subflow) (time_us : Nat)
    (g : BlestConnData) : Nat :=
  let avg_rtt := blest_avg_rtt g.min_srtt_us g.max_srtt_us
  let num_rtts := blest_num_rtts time_us avg_rtt
  let packets := blest_packets sf num_rtts
  packets * sf.mss_cache * g.lambda_1000.toNat % 2 ^ 64 / 1000 % 2 ^ 32

/-- Embedding of `blest_estimate_bytes` of the other unnamed BLEST unit (part_000):
per-path RTT bounds and the full lambda scaling. -/
def blest_estimate_bytes_v0 (sf : Subflow) (time_us : Nat)
    (g : BlestConnData) : Nat :=
  let avg_rtt := blest_avg_rtt sf.srtt_us sf.srtt_us
  let num_rtts := blest_num_rtts time_us avg_rtt
  let packets := blest_packets sf num_rtts
  packets * sf.mss_cache * g.lambda_1000.toNat % 2 ^ 64 / 1000 % 2 ^ 32

/-- Embedding of `blest_estimate_linger_time` (blest.h): drain-time estimate for data
committed to `sf`, interpolating the global RTT bounds by window
fullness. -/
def blest_estimate_linger_time (sf : Subflow) (g : BlestConnData) : Nat :=
  if !sf.has_sock then U32_MAX
  else
    let inflight := sf.inflight + 1
    let cwnd := sf.snd_cwnd
    let estimate :=
      if inflight ≥ cwnd then g.max_srtt_us
      else
        let slope := u32sub g.max_srtt_us g.min_srtt_us
        let cwnd := if cwnd == 0 then 1 else cwnd
        (g.min_srtt_us + slope * inflight % 2 ^ 32 / cwnd) % 2 ^ 32
    max (sf.srtt_us >>> 3) estimate

/-- Loop of `find_min_rtt_subflow` (blest.h): minimum-RTT scan over all available
subflows which also folds each observed effective RTT into the global
`min_srtt_us` / `max_srtt_us` bounds. -/
def find_min_rtt_go :
    List (Nat × Subflow) → BlestConnData → Nat → Option Nat →
    BlestConnData × Nat × Option Nat
  | [], g, min_rtt, best => (g, min_rtt, best)
  | (i, sf) :: rest, g, min_rtt, best =>
    if mptcp_subflow_is_available sf then
      let g := { g with
        min_srtt_us := min g.min_srtt_us (mptcp_subflow_get_rtt sf)
        max_srtt_us := max g.max_srtt_us (mptcp_subflow_get_rtt sf) }
      let r := mptcp_subflow_get_rtt sf
      if r < min_rtt then find_min_rtt_go rest g r (some i)
      else find_min_rtt_go rest g min_rtt best
    else find_min_rtt_go rest g min_rtt best

/-- Embedding of `find_min_rtt_subflow` (blest.h) over a subflow list. -/
def find_min_rtt_subflow (subflows : List Subflow) (g : BlestConnData) :
    BlestConnData × Option Nat :=
  let r := find_min_rtt_go subflows.enum g U32_MAX none
  (r.1, r.2.2)

/-! ## Scheduler entry points -/

/-- Error code `EINVAL` (22). -/
def EINVAL : Int := 22

/-- Error code `EAGAIN` (11). -/
def EAGAIN : Int := 11

/-- Per-connection view the schedulers read: the subflow list, the meta
socket's send window and write pointers, the retransmission marker, and
the current `tcp_jiffies32` tick. -/
structure Msk where
  subflows : List Subflow
  snd_wnd : Nat := 0
  retrans_stamp : Bool := false
  now : Nat := 0
  deriving Repr

/-- Outcome of one `get_subflow` call: the C return value, the control
state after the call, and the index of the subflow marked scheduled for
this round (if any). -/
structure SchedResult where
  ret : Int
  g : BlestConnData
  scheduled : Option Nat
  deriving DecidableEq, Repr

/-- Embedding of `mptcp_sched_minrtt_get_subflow` (minrtt.c): shared min-RTT selection,
then the any-active fallback, else `-EINVAL`.  (It keeps no control
state; the result's `g` echoes a dummy.) -/
def mptcp_sched_minrtt_get_subflow (subflows : List Subflow) :
    Int × Option Nat :=
  match mptcp_sched_minrtt_inner subflows with
  | some i => (0, some i)
  | none =>
    match mptcp_select_fallback_subflow subflows with
    | some i => (0, some i)
    | none => (-EINVAL, none)

/-- The HoL-risk comparison shared verbatim by the BLEST and XLayer
`get_subflow` bodies: the fast path's estimated byte demand over the
slow path's linger time, against the send-window space left beyond the
slow path's in-flight bytes (`buffered_bytes` is the constant 0 in the
source). -/
def blest_hol_risk (msk : Msk) (best fastest : Subflow)
    (g : BlestConnData) : Bool :=
  let slow_linger_time := blest_estimate_linger_time best g
  let fast_bytes := blest_estimate_bytes fastest slow_linger_time g
  let slow_inflight_bytes := u32sub best.write_seq best.snd_una
  let slow_bytes := 0 + slow_inflight_bytes
  let avail_space :=
    if slow_bytes < msk.snd_wnd then msk.snd_wnd - slow_bytes else 0
  decide (fast_bytes > avail_space)

/-- Embedding of `mptcp_sched_blest_get_subflow` of the unnamed BLEST unit (part_001):
min-RTT scan, default (non-backup-first) selection, then the BLEST
HoL-blocking check; on HoL risk it bumps `hol_prevented` and returns
`-EAGAIN` with no subflow marked scheduled. -/
def mptcp_sched_blest_get_subflow (msk : Msk) (g0 : BlestConnData) :
    SchedResult :=
  let g := { g0 with total_decisions := g0.total_decisions + 1 }
  match find_min_rtt_subflow msk.subflows g with
  | (g, none) => ⟨-EAGAIN, g, none⟩
  | (g, some fi) =>
    match mptcp_sched_minrtt_inner msk.subflows with
    | none => ⟨-EAGAIN, g, none⟩
    | some di =>
      let best := msk.subflows.getD di default
      let fastest := msk.subflows.getD fi default
      if !best.has_sock || !fastest.has_sock then ⟨-EAGAIN, g, none⟩
      else if di ≠ fi then
        let g := blest_update_lambda msk.retrans_stamp best.srtt_us msk.now g
        if blest_hol_risk msk best fastest g then
          ⟨-EAGAIN, { g with hol_prevented := g.hol_prevented + 1 }, none⟩
        else ⟨0, g, some di⟩
      else ⟨0, g, some di⟩

/-- Subflow-classification loop of `mptcp_sched_xlayer_get_subflow`
(xlayer.c): for each available subflow with a live socket, record it as
the WiFi-class or cellular-class subflow (the last one of each class
encountered wins). -/
def xlayer_classify :
    List (Nat × Subflow) → Option Nat × Option Nat → Option Nat × Option Nat
  | [], acc => acc
  | (i, sf) :: rest, (wifi, nr) =>
    if mptcp_subflow_is_available sf && sf.has_sock then
      if sf.is_wifi then xlayer_classify rest (some i, nr)
      else xlayer_classify rest (wifi, some i)
    else xlayer_classify rest (wifi, nr)

/-- Bitrate-based candidate selection of xlayer.c (`maxdr_subflow`):
the subflow of whichever link class reports the higher metric, with
fallbacks to the minimum-RTT subflow. -/
def xlayer_maxdr (wifi nr : Option Nat) (wifi_rate nr_rate : Int)
    (minrtt : Nat) : Nat :=
  match wifi, nr with
  | some wi, some ni =>
    if wifi_rate > 0 && nr_rate > 0 then
      if wifi_rate > nr_rate then wi else ni
    else minrtt
  | some wi, none => wi
  | none, some ni => ni
  | none, none => minrtt

/-- Computation of `default_subflow` in xlayer.c: the shared min-RTT selection, falling
back to the already-found min-RTT subflow when it yields nothing. -/
def xlayer_default_index (msk : Msk) (mi : Nat) : Nat :=
  (mptcp_sched_minrtt_inner msk.subflows).getD mi

/-- Computation of `maxdr_subflow` in xlayer.c: the bitrate-based candidate via the
classification loop and metric comparison. -/
def xlayer_candidate_index (msk : Msk) (wifi_rate nr_rate : Int)
    (mi : Nat) : Nat :=
  let cls := xlayer_classify msk.subflows.enum (none, none)
  xlayer_maxdr cls.1 cls.2 wifi_rate nr_rate mi

/-- Embedding of `mptcp_sched_xlayer_get_subflow` (xlayer.c): min-RTT scan, default
selection (falling back to the min-RTT subflow), bitrate-based candidate,
then the BLEST HoL check with the default subflow as the slow path and
the bitrate candidate as the fast path; on HoL risk it bumps
`hol_prevented` and returns `-EAGAIN`, otherwise it marks the *default*
subflow scheduled. -/
def mptcp_sched_xlayer_get_subflow (msk : Msk) (wifi_rate nr_rate : Int)
    (g0 : BlestConnData) : SchedResult :=
  let g := { g0 with total_decisions := g0.total_decisions + 1 }
  match find_min_rtt_subflow msk.subflows g with
  | (g, none) => ⟨-EINVAL, g, none⟩
  | (g, some mi) =>
    let di := xlayer_default_index msk mi
    let ci := xlayer_candidate_index msk wifi_rate nr_rate mi
    let best := msk.subflows.getD di default
    let maxdr := msk.subflows.getD ci default
    if best.has_sock && maxdr.has_sock && di ≠ ci then
      let g := blest_update_lambda msk.retrans_stamp best.srtt_us msk.now g
      if blest_hol_risk msk best maxdr g then
        ⟨-EAGAIN, { g with hol_prevented := g.hol_prevented + 1 }, none⟩
      else ⟨0, g, some di⟩
    else ⟨0, g, some di⟩

/-- Embedding of `mptcp_sched_xlayer_init` (xlayer.c): `kzalloc` zeroes
the struct and only `lambda_1000`, `total_decisions` and `hol_prevented`
are then stored explicitly — the RTT bounds keep the zeroes, no
`U32_MAX` sentinel is written. -/
def mptcp_sched_xlayer_init : BlestConnData :=
  { lambda_1000 := (lambda_param : Int) * 100
    last_lambda_update := 0
    min_srtt_us := 0
    max_srtt_us := 0
    total_decisions := 0
    hol_prevented := 0 }

/-! ## Concrete states used to instantiate the theorems -/

/-- A congestion-avoidance subflow with 90 in-flight bytes and a slow
(100 ms) measured RTT. -/
def sfSlow : Subflow :=
  { srtt_us := 800000, snd_cwnd := 10, inflight := 2, wnd_end := 1000000,
    mss_cache := 1000, write_seq := 1090, snd_una := 1000, snd_ssthresh := 20 }

/-- A fast (10 ms) backup subflow. -/
def sfFastBackup : Subflow :=
  { srtt_us := 80000, snd_cwnd := 10, inflight := 2, wnd_end := 1000000,
    mss_cache := 1000, backup := true, snd_ssthresh := 20 }

/-- Connection where the default (non-backup) choice is the slow subflow
while the overall minimum-RTT subflow is the fast backup, and the send
window leaves only 10 bytes beyond the slow subflow's in-flight data. -/
def mskHol : Msk :=
  { subflows := [sfSlow, sfFastBackup], snd_wnd := 100, now := 1000000 }

/-- A fast WiFi-class subflow. -/
def sfWifi : Subflow :=
  { srtt_us := 80000, snd_cwnd := 10, inflight := 2, wnd_end := 1000000,
    mss_cache := 1000, snd_ssthresh := 20, is_wifi := true }

/-- A slow cellular-class subflow. -/
def sfNr : Subflow :=
  { srtt_us := 800000, snd_cwnd := 10, inflight := 2, wnd_end := 1000000,
    mss_cache := 1000, snd_ssthresh := 20, write_seq := 1090, snd_una := 1000 }

/-- Connection with one subflow of each link class and an ample send
window (no HoL risk). -/
def mskXlayer : Msk :=
  { subflows := [sfWifi, sfNr], snd_wnd := 100000000, now := 1000000 }

/-- Slow-start subflow used to evaluate the byte estimators. -/
def sfEst : Subflow := { mss_cache := 1000, snd_cwnd := 10 }

/-- An active, sendable subflow that is congestion-window-limited, hence
not available to the availability filter. -/
def sfCwndLimited : Subflow :=
  { srtt_us := 80000, snd_cwnd := 5, inflight := 5, wnd_end := 1000000,
    mss_cache := 1000 }

/-- An available subflow whose RTT was never measured (`srtt_us = 0`),
so its effective RTT is the `U32_MAX` sentinel. -/
def sfUnmeasured : Subflow := {}

/-- An available *backup* subflow whose RTT was never measured. -/
def sfUnmeasuredBackup : Subflow := { backup := true }

/-! ## Properties of the minimum-RTT scans -/

/-- Evolution of the `get_minrtt_sock` scan: the accumulator pair either
survives untouched or is replaced by an eligible entry of the scanned
list with a strictly smaller recorded RTT; meanwhile the recorded
minimum bounds every eligible entry's RTT and never grows. -/
theorem get_minrtt_go_spec (ub cs : Bool) :
    ∀ (l : List (Nat × Subflow)) (m : Nat) (b : Option Nat),
      (get_minrtt_go ub cs l m b = (m, b) ∨
        ∃ p ∈ l, minrtt_eligible ub cs p.2 = true ∧
          (get_minrtt_go ub cs l m b).2 = some p.1 ∧
          (get_minrtt_go ub cs l m b).1 = mptcp_subflow_get_rtt p.2 ∧
          (get_minrtt_go ub cs l m b).1 < m) ∧
      (∀ p ∈ l, minrtt_eligible ub cs p.2 = true →
        (get_minrtt_go ub cs l m b).1 ≤ mptcp_subflow_get_rtt p.2) ∧
      (get_minrtt_go ub cs l m b).1 ≤ m := by
  intro l
  induction l with
  | nil =>
    intro m b
    exact ⟨Or.inl rfl, by simp, le_refl _⟩
  | cons hd tl ih =>
    intro m b
    obtain ⟨i, sf⟩ := hd
    by_cases helig : minrtt_eligible ub cs sf = true
    · by_cases hlt : mptcp_subflow_get_rtt sf < m
      · have hstep : get_minrtt_go ub cs ((i, sf) :: tl) m b =
            get_minrtt_go ub cs tl (mptcp_subflow_get_rtt sf) (some i) := by
          simp [get_minrtt_go, helig, hlt]
        obtain ⟨h1, h2, h3⟩ := ih (mptcp_subflow_get_rtt sf) (some i)
        rw [hstep]
        refine ⟨?_, ?_, le_trans h3 (le_of_lt hlt)⟩
        · rcases h1 with heq | ⟨p, hp, hpe, hps, hpr, hpm⟩
          · exact Or.inr ⟨(i, sf), List.mem_cons_self _ _, helig,
              by rw [heq], by rw [heq], by rw [heq]; exact hlt⟩
          · exact Or.inr ⟨p, List.mem_cons_of_mem _ hp, hpe, hps, hpr,
              lt_trans hpm hlt⟩
        · intro p hp hpe
          rcases List.mem_cons.mp hp with rfl | hp'
          · exact h3
          · exact h2 p hp' hpe
      · have hstep : get_minrtt_go ub cs ((i, sf) :: tl) m b =
            get_minrtt_go ub cs tl m b := by
          simp [get_minrtt_go, helig, hlt]
        obtain ⟨h1, h2, h3⟩ := ih m b
        rw [hstep]
        refine ⟨h1.imp id ?_, ?_, h3⟩
        · rintro ⟨p, hp, hrest⟩
          exact ⟨p, List.mem_cons_of_mem _ hp, hrest⟩
        · intro p hp hpe
          rcases List.mem_cons.mp hp with rfl | hp'
          · exact le_trans h3 (Nat.le_of_not_lt hlt)
          · exact h2 p hp' hpe
    · have hstep : get_minrtt_go ub cs ((i, sf) :: tl) m b =
          get_minrtt_go ub cs tl m b := by
        simp [get_minrtt_go, helig]
      obtain ⟨h1, h2, h3⟩ := ih m b
      rw [hstep]
      refine ⟨h1.imp id ?_, ?_, h3⟩
      · rintro ⟨p, hp, hrest⟩
        exact ⟨p, List.mem_cons_of_mem _ hp, hrest⟩
      · intro p hp hpe
        rcases List.mem_cons.mp hp with rfl | hp'
        · exact absurd hpe helig
        · exact h2 p hp' hpe

/-- If some eligible entry beats the running minimum, the scan returns a
selection. -/
theorem get_minrtt_go_some (ub cs : Bool) (l : List (Nat × Subflow))
    (m : Nat) (b : Option Nat) (p : Nat × Subflow) (hp : p ∈ l)
    (he : minrtt_eligible ub cs p.2 = true)
    (hr : mptcp_subflow_get_rtt p.2 < m) :
    ∃ i, (get_minrtt_go ub cs l m b).2 = some i := by
  obtain ⟨h1, h2, _⟩ := get_minrtt_go_spec ub cs l m b
  rcases h1 with heq | ⟨q, _, _, hqs, _, _⟩
  · have hle := h2 p hp he
    rw [heq] at hle
    exact absurd hr (not_lt.mpr hle)
  · exact ⟨q.1, hqs⟩

/-- A scan over entries none of which is eligible changes nothing. -/
theorem get_minrtt_go_no_elig (ub cs : Bool) :
    ∀ (l : List (Nat × Subflow)) (m : Nat) (b : Option Nat),
      (∀ p ∈ l, minrtt_eligible ub cs p.2 = false) →
      get_minrtt_go ub cs l m b = (m, b) := by
  intro l
  induction l with
  | nil => intro m b _; rfl
  | cons hd tl ih =>
    intro m b h
    have hhd := h hd (List.mem_cons_self _ _)
    obtain ⟨i, sf⟩ := hd
    have hstep : get_minrtt_go ub cs ((i, sf) :: tl) m b =
        get_minrtt_go ub cs tl m b := by
      simp only [get_minrtt_go]
      rw [if_neg (by simp [hhd])]
    rw [hstep]
    exact ih m b fun p hp => h p (List.mem_cons_of_mem _ hp)

/-- The BLEST min-RTT scan only tightens the global RTT bounds and leaves
every other control-state field untouched. -/
theorem find_min_rtt_go_state :
    ∀ (l : List (Nat × Subflow)) (g : BlestConnData) (m : Nat)
      (b : Option Nat),
      (find_min_rtt_go l g m b).1.min_srtt_us ≤ g.min_srtt_us ∧
      g.max_srtt_us ≤ (find_min_rtt_go l g m b).1.max_srtt_us ∧
      (find_min_rtt_go l g m b).1.lambda_1000 = g.lambda_1000 ∧
      (find_min_rtt_go l g m b).1.last_lambda_update = g.last_lambda_update ∧
      (find_min_rtt_go l g m b).1.total_decisions = g.total_decisions ∧
      (find_min_rtt_go l g m b).1.hol_prevented = g.hol_prevented := by
  intro l
  induction l with
  | nil =>
    intro g m b
    exact ⟨le_refl _, le_refl _, rfl, rfl, rfl, rfl⟩
  | cons hd tl ih =>
    intro g m b
    obtain ⟨i, sf⟩ := hd
    by_cases hav : mptcp_subflow_is_available sf = true
    · have hmin : ∀ (g' : BlestConnData) m' b',
          (find_min_rtt_go tl g' m' b').1.min_srtt_us ≤ g'.min_srtt_us ∧
          g'.max_srtt_us ≤ (find_min_rtt_go tl g' m' b').1.max_srtt_us ∧
          (find_min_rtt_go tl g' m' b').1.lambda_1000 = g'.lambda_1000 ∧
          (find_min_rtt_go tl g' m' b').1.last_lambda_update =
            g'.last_lambda_update ∧
          (find_min_rtt_go tl g' m' b').1.total_decisions =
            g'.total_decisions ∧
          (find_min_rtt_go tl g' m' b').1.hol_prevented = g'.hol_prevented :=
        fun g' m' b' => ih g' m' b'
      set g' : BlestConnData :=
        { g with
          min_srtt_us := min g.min_srtt_us (mptcp_subflow_get_rtt sf)
          max_srtt_us := max g.max_srtt_us (mptcp_subflow_get_rtt sf) } with hg'
      have hstep : find_min_rtt_go ((i, sf) :: tl) g m b =
          if mptcp_subflow_get_rtt sf < m then
            find_min_rtt_go tl g' (mptcp_subflow_get_rtt sf) (some i)
          else find_min_rtt_go tl g' m b := by
        simp only [find_min_rtt_go, hav, if_true]
      have hgmin : g'.min_srtt_us ≤ g.min_srtt_us := min_le_left _ _
      have hgmax : g.max_srtt_us ≤ g'.max_srtt_us := le_max_left _ _
      rw [hstep]
      split
      all_goals
        obtain ⟨i1, i2, i3, i4, i5, i6⟩ := hmin g' _ _
        exact ⟨le_trans i1 hgmin, le_trans hgmax i2, i3, i4, i5, i6⟩
    · have hstep : find_min_rtt_go ((i, sf) :: tl) g m b =
          find_min_rtt_go tl g m b := by
        simp only [find_min_rtt_go]
        rw [if_neg hav]
      rw [hstep]
      exact ih g m b

/-- A BLEST min-RTT scan over entirely unavailable subflows changes
nothing. -/
theorem find_min_rtt_go_no_avail :
    ∀ (l : List (Nat × Subflow)) (g : BlestConnData) (m : Nat)
      (b : Option Nat),
      (∀ p ∈ l, mptcp_subflow_is_available p.2 = false) →
      find_min_rtt_go l g m b = (g, m, b) := by
  intro l
  induction l with
  | nil => intro g m b _; rfl
  | cons hd tl ih =>
    intro g m b h
    have hhd := h hd (List.mem_cons_self _ _)
    obtain ⟨i, sf⟩ := hd
    have hstep : find_min_rtt_go ((i, sf) :: tl) g m b =
        find_min_rtt_go tl g m b := by
      simp only [find_min_rtt_go]
      rw [if_neg (by simp [hhd])]
    rw [hstep]
    exact ih g m b fun p hp => h p (List.mem_cons_of_mem _ hp)

/-- The lambda controller never touches the RTT bounds or the counters. -/
theorem blest_update_lambda_state (r : Bool) (s n : Nat)
    (g : BlestConnData) :
    (blest_update_lambda r s n g).min_srtt_us = g.min_srtt_us ∧
    (blest_update_lambda r s n g).max_srtt_us = g.max_srtt_us ∧
    (blest_update_lambda r s n g).total_decisions = g.total_decisions ∧
    (blest_update_lambda r s n g).hol_prevented = g.hol_prevented := by
  unfold blest_update_lambda
  split <;> exact ⟨rfl, rfl, rfl, rfl⟩

/-- A rate-limited-out call to the lambda controller is the identity. -/
theorem blest_update_lambda_noop (r : Bool) (s n : Nat) (g : BlestConnData)
    (h : u32sub n g.last_lambda_update < usecs_to_jiffies (s >>> 3)) :
    blest_update_lambda r s n g = g := by
  unfold blest_update_lambda
  rw [if_pos h]

/-- A call that passes the rate limiter records its own tick as the new
`last_lambda_update`. -/
theorem blest_update_lambda_stamp (r : Bool) (s n : Nat) (g : BlestConnData)
    (h : ¬ u32sub n g.last_lambda_update < usecs_to_jiffies (s >>> 3)) :
    (blest_update_lambda r s n g).last_lambda_update = n % 2 ^ 32 := by
  unfold blest_update_lambda
  rw [if_neg h]

/-! ## Claim theorems -/

/-- C3: for every prior control state (hence after any sequence of update
calls) and every retransmission signal, a lambda update that modifies
`lambda_1000` leaves it within `[min_lambda*100, max_lambda*100]`, i.e.
`[1000, 1300]` with the default module parameters. -/
theorem lambda_bounds_after_update (g : BlestConnData) (retrans : Bool)
    (srtt_us now : Nat)
    (hmod : (blest_update_lambda retrans srtt_us now g).lambda_1000 ≠
      g.lambda_1000) :
    (min_lambda : Int) * 100 ≤
      (blest_update_lambda retrans srtt_us now g).lambda_1000 ∧
    (blest_update_lambda retrans srtt_us now g).lambda_1000 ≤
      (max_lambda : Int) * 100 := by
  unfold blest_update_lambda at hmod ⊢
  by_cases hguard :
      u32sub now g.last_lambda_update < usecs_to_jiffies (srtt_us >>> 3)
  · rw [if_pos hguard] at hmod
    exact absurd rfl hmod
  · rw [if_neg hguard]
    refine ⟨le_max_right _ _, ?_⟩
    exact max_le (min_le_right _ _) (by norm_num [min_lambda, max_lambda])

/-- Witness for C3: from the default state, an update at tick 1000000
with the retransmission marker set changes `lambda_1000` (to 1240) and
lands inside the `[1000, 1300]` bounds. -/
theorem lambda_bounds_after_update_witness :
    (blest_update_lambda true 8000 1000000 mptcp_sched_blest_init).lambda_1000 ≠
      mptcp_sched_blest_init.lambda_1000 ∧
    (min_lambda : Int) * 100 ≤
      (blest_update_lambda true 8000 1000000 mptcp_sched_blest_init).lambda_1000 ∧
    (blest_update_lambda true 8000 1000000 mptcp_sched_blest_init).lambda_1000 ≤
      (max_lambda : Int) * 100 :=
  ⟨by decide,
    lambda_bounds_after_update mptcp_sched_blest_init true 8000 1000000
      (by decide)⟩

/-- C7 (amended): if a lambda update *fires* at tick `n1` (it passes the
rate limiter, so `last_lambda_update` becomes `n1`), then a second
update call at tick `n2`, separated from the first by less than the slow
path's smoothed RTT (`srtt_us >> 3`) converted to jiffies, leaves the
whole control state — in particular `lambda_1000` and
`last_lambda_update` — unchanged; equivalently, any call within less
than the slow path's RTT tick of the recorded `last_lambda_update` is a
no-op.  Without the proviso the claim fails: after a rate-limited-out
first call, the second call is gated against the older
`last_lambda_update`, not against the first call's time. -/
theorem lambda_update_rate_limited (g : BlestConnData) (r1 r2 : Bool)
    (s1 s2 n1 n2 : Nat)
    (hfirst : ¬ u32sub n1 g.last_lambda_update <
      usecs_to_jiffies (s1 >>> 3))
    (hsep : u32sub n2 n1 < usecs_to_jiffies (s2 >>> 3)) :
    blest_update_lambda r2 s2 n2 (blest_update_lambda r1 s1 n1 g) =
      blest_update_lambda r1 s1 n1 g := by
  apply blest_update_lambda_noop
  rw [blest_update_lambda_stamp r1 s1 n1 g hfirst]
  have hmod : u32sub n2 (n1 % 2 ^ 32) = u32sub n2 n1 := by
    unfold u32sub
    rw [Nat.mod_mod_of_dvd n1 dvd_rfl]
  rw [hmod]
  exact hsep

/-- Witness for C7: an update fires at tick 1000000; a second call 5
jiffies later with a slow-path RTT of 10 ms (10 jiffies) is a no-op. -/
theorem lambda_update_rate_limited_witness :
    ¬ u32sub 1000000 mptcp_sched_blest_init.last_lambda_update <
      usecs_to_jiffies (8000 >>> 3) ∧
    u32sub 1000005 1000000 < usecs_to_jiffies (80000 >>> 3) ∧
    blest_update_lambda false 80000 1000005
        (blest_update_lambda true 8000 1000000 mptcp_sched_blest_init) =
      blest_update_lambda true 8000 1000000 mptcp_sched_blest_init :=
  ⟨by decide, by decide,
    lambda_update_rate_limited mptcp_sched_blest_init true false 8000 80000
      1000000 1000005 (by decide) (by decide)⟩

/-- Counterexample for C7 as stated: with `last_lambda_update = 0` and a
slow-path RTT tick of 10 jiffies (`srtt_us = 80000`), update calls at
jiffies 5 and 12 are separated by 7 < 10, yet the first call is
rate-limited out (5 < 10 since the *recorded* last update) while the
second fires (12 ≥ 10), changing `lambda_1000` from 1200 to 1190 and
`last_lambda_update` from 0 to 12 — so two calls separated by less than
the slow path's RTT tick do not always leave the state unchanged. -/
theorem lambda_update_rate_limited_cex :
    blest_update_lambda false 80000 5 mptcp_sched_blest_init =
      mptcp_sched_blest_init ∧
    u32sub 12 5 < usecs_to_jiffies (80000 >>> 3) ∧
    (blest_update_lambda false 80000 12
      (blest_update_lambda false 80000 5
        mptcp_sched_blest_init)).lambda_1000 = 1190 ∧
    (blest_update_lambda false 80000 12
      (blest_update_lambda false 80000 5
        mptcp_sched_blest_init)).lambda_1000 ≠
      mptcp_sched_blest_init.lambda_1000 ∧
    (blest_update_lambda false 80000 12
      (blest_update_lambda false 80000 5
        mptcp_sched_blest_init)).last_lambda_update ≠
      mptcp_sched_blest_init.last_lambda_update := by
  decide

/-- C2: on a slow-start subflow with `mss = 1000`, `cwnd = 10` (so the
segment model yields 10 packets), the blest.h estimator — the one linked
into the BLEST and XLayer schedulers — returns `packets * mss / 1000 = 10`,
*not* the claimed `packets * mss * lambda_1000 / 1000 = 12000`; the
utils.h and part_000 estimators do return the claimed value. -/
theorem estimate_bytes_lambda_dropped :
    blest_packets sfEst 1 = 10 ∧
    mptcp_sched_blest_init.lambda_1000 = 1200 ∧
    blest_estimate_bytes sfEst 0 mptcp_sched_blest_init = 10 ∧
    blest_estimate_bytes_v0 sfEst 0 mptcp_sched_blest_init = 12000 ∧
    common_estimate_bytes sfEst 0 mptcp_sched_blest_init = 12000 ∧
    blest_packets sfEst 1 * sfEst.mss_cache * 1200 / 1000 = 12000 ∧
    blest_estimate_bytes sfEst 0 mptcp_sched_blest_init ≠
      blest_packets sfEst 1 * sfEst.mss_cache * 1200 / 1000 := by
  decide

/-- C6 (amended): `avg_rtt` is `(min_srtt + max_srtt) / 2` in `u32`
arithmetic; `num_rtts` is 1 when `avg_rtt` is zero, and otherwise it is
`time_budget / avg_rtt + 1` (floor division plus one) — this equals
`ceil(time_budget / avg_rtt)` exactly when `avg_rtt` does not divide
`time_budget`, and exceeds the ceiling by one when it does. -/
theorem estimate_num_rtts (minS maxS t : Nat)
    (ha : 0 < blest_avg_rtt minS maxS)
    (hof : t / blest_avg_rtt minS maxS + 1 < 2 ^ 32) :
    blest_avg_rtt minS maxS = (minS + maxS) % 2 ^ 32 / 2 ∧
    blest_num_rtts t 0 = 1 ∧
    blest_num_rtts t (blest_avg_rtt minS maxS) =
      (t + blest_avg_rtt minS maxS - 1) / blest_avg_rtt minS maxS +
        if blest_avg_rtt minS maxS ∣ t then 1 else 0 := by
  refine ⟨rfl, rfl, ?_⟩
  set a := blest_avg_rtt minS maxS with ha'
  have h0 : a ≠ 0 := Nat.pos_iff_ne_zero.mp ha
  have hnum : blest_num_rtts t a = t / a + 1 := by
    unfold blest_num_rtts
    rw [if_neg (by simpa using h0)]
    exact Nat.mod_eq_of_lt hof
  rw [hnum]
  by_cases hdvd : a ∣ t
  · rw [if_pos hdvd]
    obtain ⟨q, rfl⟩ := hdvd
    have hsplit : a * q + a - 1 = a * q + (a - 1) := by omega
    have hsmall : (a - 1) / a = 0 := Nat.div_eq_of_lt (by omega)
    rw [Nat.mul_div_cancel_left q ha, hsplit, Nat.mul_add_div ha, hsmall]
  · rw [if_neg hdvd]
    have hr : 0 < t % a :=
      Nat.pos_of_ne_zero fun h => hdvd (Nat.dvd_iff_mod_eq_zero.mpr h)
    have hrlt : t % a < a := Nat.mod_lt _ ha
    have ht : a * (t / a) + t % a = t := Nat.div_add_mod t a
    have hd : a * (t / a + 1) = a * (t / a) + a := by ring
    have key : t + a - 1 = a * (t / a + 1) + (t % a - 1) := by omega
    have hsmall : (t % a - 1) / a = 0 := Nat.div_eq_of_lt (by omega)
    rw [key, Nat.mul_add_div ha, hsmall]

/-- Witness for C6: RTT bounds 5/5 give `avg_rtt = 5`; with time budget
7 the estimator uses `7/5 + 1 = 2 = ceil(7/5)` RTTs. -/
theorem estimate_num_rtts_witness :
    0 < blest_avg_rtt 5 5 ∧ 7 / blest_avg_rtt 5 5 + 1 < 2 ^ 32 ∧
    (blest_avg_rtt 5 5 = (5 + 5) % 2 ^ 32 / 2 ∧
      blest_num_rtts 7 0 = 1 ∧
      blest_num_rtts 7 (blest_avg_rtt 5 5) =
        (7 + blest_avg_rtt 5 5 - 1) / blest_avg_rtt 5 5 +
          if blest_avg_rtt 5 5 ∣ 7 then 1 else 0) :=
  ⟨by decide, by decide, estimate_num_rtts 5 5 7 (by decide) (by decide)⟩

/-- Counterexample for C6 as stated: with RTT bounds 5/5 and time budget
10 the code computes `num_rtts = 10/5 + 1 = 3`, while
`ceil(10 / avg_rtt) = 2`. -/
theorem estimate_num_rtts_cex :
    blest_avg_rtt 5 5 = 5 ∧
    blest_num_rtts 10 (blest_avg_rtt 5 5) = 3 ∧
    (10 + blest_avg_rtt 5 5 - 1) / blest_avg_rtt 5 5 = 2 ∧
    blest_num_rtts 10 (blest_avg_rtt 5 5) ≠ 2 := by
  decide

/-- C9: any subflow `get_minrtt_sock` returns has effective RTT strictly
below `U32_MAX` (so a path whose unmeasured RTT was mapped to the
sentinel is never returned); and on a list holding a single available
subflow with unmeasured RTT, the selection — including both rounds of
`__mptcp_sched_minrtt_get_subflow` — returns none although an available
path exists. -/
theorem get_minrtt_skips_unmeasured (ub cs : Bool) (paths : List Subflow)
    (i : Nat) (h : get_minrtt_sock paths ub cs = some i) :
    (∃ sf, paths[i]? = some sf ∧ mptcp_subflow_is_available sf = true ∧
      mptcp_subflow_get_rtt sf < U32_MAX) ∧
    (mptcp_subflow_is_available sfUnmeasured = true ∧
      mptcp_subflow_get_rtt sfUnmeasured = U32_MAX ∧
      get_minrtt_sock [sfUnmeasured] false true = none ∧
      mptcp_sched_minrtt_inner [sfUnmeasured] = none) := by
  refine ⟨?_, by decide, by decide, by decide, by decide⟩
  unfold get_minrtt_sock at h
  obtain ⟨h1, _, _⟩ := get_minrtt_go_spec ub cs paths.enum U32_MAX none
  rcases h1 with heq | ⟨p, hp, hpe, hps, hpr, hpm⟩
  · rw [heq] at h
    exact absurd h (by simp)
  · rw [hps] at h
    obtain rfl : p.1 = i := Option.some.inj h
    have hmem : paths[p.1]? = some p.2 := by
      have := List.mk_mem_enum_iff_getElem?.mp (by simpa using hp)
      simpa using this
    have havail : mptcp_subflow_is_available p.2 = true := by
      have := hpe
      simp only [minrtt_eligible, Bool.and_eq_true] at this
      exact this.1.1
    exact ⟨p.2, hmem, havail, hpr ▸ hpm⟩

/-- Witness for C9: on a two-subflow list the scan returns index 1, whose
effective RTT (2 µs) is measured, i.e. below the sentinel. -/
theorem get_minrtt_skips_unmeasured_witness :
    get_minrtt_sock [sfSlow, { srtt_us := 16 }] false true = some 1 ∧
    ((∃ sf, [sfSlow, ({ srtt_us := 16 } : Subflow)][1]? = some sf ∧
        mptcp_subflow_is_available sf = true ∧
        mptcp_subflow_get_rtt sf < U32_MAX) ∧
      (mptcp_subflow_is_available sfUnmeasured = true ∧
        mptcp_subflow_get_rtt sfUnmeasured = U32_MAX ∧
        get_minrtt_sock [sfUnmeasured] false true = none ∧
        mptcp_sched_minrtt_inner [sfUnmeasured] = none)) :=
  ⟨by decide,
    get_minrtt_skips_unmeasured false true [sfSlow, { srtt_us := 16 }] 1
      (by decide)⟩

/-- C8 (amended): when the non-backup round finds nothing and some
available backup subflow has a *measured* RTT (effective RTT below the
`U32_MAX` sentinel), `__mptcp_sched_minrtt_get_subflow` returns an
available backup subflow of minimal effective RTT among the eligible
backups, rather than failing. -/
theorem backup_fallback (paths : List Subflow)
    (hnb : get_minrtt_sock paths false true = none)
    (sfb : Subflow) (hmem : sfb ∈ paths)
    (helig : minrtt_eligible true true sfb = true)
    (hrtt : mptcp_subflow_get_rtt sfb < U32_MAX) :
    ∃ i sf, mptcp_sched_minrtt_inner paths = some i ∧
      paths[i]? = some sf ∧ sf.backup = true ∧
      mptcp_subflow_is_available sf = true ∧
      ∀ sf' ∈ paths, minrtt_eligible true true sf' = true →
        mptcp_subflow_get_rtt sf ≤ mptcp_subflow_get_rtt sf' := by
  have hinner : mptcp_sched_minrtt_inner paths =
      get_minrtt_sock paths true true := by
    unfold mptcp_sched_minrtt_inner
    rw [hnb]
  obtain ⟨j, hj⟩ := List.mem_iff_getElem?.mp hmem
  have hjp : (j, sfb) ∈ paths.enum := List.mk_mem_enum_iff_getElem?.mpr (by simpa using hj)
  obtain ⟨i, hi⟩ :=
    get_minrtt_go_some true true paths.enum U32_MAX none (j, sfb) hjp helig hrtt
  obtain ⟨h1, h2, _⟩ := get_minrtt_go_spec true true paths.enum U32_MAX none
  rcases h1 with heq | ⟨p, hp, hpe, hps, hpr, _⟩
  · rw [heq] at hi
    exact absurd hi (by simp)
  · have hres : get_minrtt_sock paths true true = some p.1 := hps
    have hmemp : paths[p.1]? = some p.2 := by
      have := List.mk_mem_enum_iff_getElem?.mp (by simpa using hp)
      simpa using this
    have he := hpe
    simp only [minrtt_eligible, Bool.and_eq_true, beq_iff_eq] at he
    refine ⟨p.1, p.2, hinner ▸ hres, hmemp, he.2.symm, he.1.1, ?_⟩
    intro sf' hmem' helig'
    obtain ⟨j', hj'⟩ := List.mem_iff_getElem?.mp hmem'
    have hj'p : (j', sf') ∈ paths.enum :=
      List.mk_mem_enum_iff_getElem?.mpr (by simpa using hj')
    have := h2 (j', sf') hj'p helig'
    exact hpr ▸ this

/-- Witness for C8: a lone available backup subflow with measured RTT is
returned by the selection. -/
theorem backup_fallback_witness :
    get_minrtt_sock [sfFastBackup] false true = none ∧
    minrtt_eligible true true sfFastBackup = true ∧
    mptcp_subflow_get_rtt sfFastBackup < U32_MAX ∧
    ∃ i sf, mptcp_sched_minrtt_inner [sfFastBackup] = some i ∧
      [sfFastBackup][i]? = some sf ∧ sf.backup = true ∧
      mptcp_subflow_is_available sf = true ∧
      ∀ sf' ∈ [sfFastBackup], minrtt_eligible true true sf' = true →
        mptcp_subflow_get_rtt sf ≤ mptcp_subflow_get_rtt sf' :=
  ⟨by decide, by decide, by decide,
    backup_fallback [sfFastBackup] (by decide) sfFastBackup
      (by simp) (by decide) (by decide)⟩

/-- Counterexample for C8 as stated: a lone *available* backup subflow
whose RTT was never measured is skipped by the strict comparison, so the
selection fails although an available backup exists. -/
theorem backup_fallback_cex :
    mptcp_subflow_is_available sfUnmeasuredBackup = true ∧
    sfUnmeasuredBackup.backup = true ∧
    get_minrtt_sock [sfUnmeasuredBackup] false true = none ∧
    mptcp_sched_minrtt_inner [sfUnmeasuredBackup] = none := by
  decide

/-- Entries of `enum` project to members of the base list. -/
theorem snd_mem_of_mem_enum {l : List Subflow} {p : Nat × Subflow}
    (hp : p ∈ l.enum) : p.2 ∈ l := by
  obtain ⟨i, sf⟩ := p
  exact List.getElem?_mem
    (by simpa using List.mk_mem_enum_iff_getElem?.mp hp)

/-- C5 (amended): when no subflow is available and none is even
active-and-sendable (so the last-resort fallback also finds nothing),
the minrtt scheduler returns `-EINVAL` with nothing scheduled, while the
BLEST scheduler of the unnamed unit returns `-EAGAIN` — not `-EINVAL` —
with nothing scheduled. -/
theorem no_available_path (msk : Msk) (g : BlestConnData)
    (hav : ∀ sf ∈ msk.subflows, mptcp_subflow_is_available sf = false)
    (hfb : ∀ sf ∈ msk.subflows,
      (sf.has_sock && sf.active && sf.can_send) = false) :
    mptcp_sched_minrtt_get_subflow msk.subflows = (-EINVAL, none) ∧
    (mptcp_sched_blest_get_subflow msk g).ret = -EAGAIN ∧
    (mptcp_sched_blest_get_subflow msk g).scheduled = none := by
  have henum : ∀ p ∈ msk.subflows.enum,
      mptcp_subflow_is_available p.2 = false :=
    fun p hp => hav p.2 (snd_mem_of_mem_enum hp)
  have helig : ∀ ub cs : Bool, ∀ p ∈ msk.subflows.enum,
      minrtt_eligible ub cs p.2 = false := by
    intro ub cs p hp
    simp [minrtt_eligible, henum p hp]
  have hsock : ∀ ub cs : Bool, get_minrtt_sock msk.subflows ub cs = none := by
    intro ub cs
    unfold get_minrtt_sock
    rw [get_minrtt_go_no_elig ub cs _ _ _ (helig ub cs)]
  have hinner : mptcp_sched_minrtt_inner msk.subflows = none := by
    unfold mptcp_sched_minrtt_inner
    rw [hsock false true, hsock true true]
  have hfall : mptcp_select_fallback_subflow msk.subflows = none := by
    unfold mptcp_select_fallback_subflow
    rw [List.find?_eq_none.mpr ?_]
    · rfl
    · intro p hp
      have := hfb p.2 (snd_mem_of_mem_enum hp)
      simpa using this
  refine ⟨?_, ?_⟩
  · unfold mptcp_sched_minrtt_get_subflow
    rw [hinner, hfall]
  · have hfind : find_min_rtt_subflow msk.subflows
        { g with total_decisions := g.total_decisions + 1 } =
        ({ g with total_decisions := g.total_decisions + 1 }, none) := by
      unfold find_min_rtt_subflow
      rw [find_min_rtt_go_no_avail _ _ _ _ henum]
    simp only [mptcp_sched_blest_get_subflow, hfind]
    exact ⟨trivial, trivial⟩

/-- Witness for C5: on a connection with no subflows at all, minrtt
returns `-EINVAL` and BLEST returns `-EAGAIN`, neither scheduling. -/
theorem no_available_path_witness :
    mptcp_sched_minrtt_get_subflow ([] : List Subflow) = (-EINVAL, none) ∧
    (mptcp_sched_blest_get_subflow { subflows := [] }
      mptcp_sched_blest_init).ret = -EAGAIN ∧
    (mptcp_sched_blest_get_subflow { subflows := [] }
      mptcp_sched_blest_init).scheduled = none :=
  no_available_path { subflows := [] } mptcp_sched_blest_init
    (by simp) (by simp)

/-- Counterexample for C5 as stated: (a) with zero subflows the BLEST
`get_subflow` of the unnamed unit returns `-EAGAIN`, not the claimed
`-EINVAL`; (b) with zero *available* subflows (a lone active, sendable
but congestion-window-limited path) the minrtt scheduler's last-resort
fallback still marks a path selected instead of failing. -/
theorem no_available_path_cex :
    (mptcp_sched_blest_get_subflow { subflows := [] }
      mptcp_sched_blest_init).ret = -EAGAIN ∧
    (-EAGAIN : Int) ≠ -EINVAL ∧
    mptcp_subflow_is_available sfCwndLimited = false ∧
    mptcp_sched_minrtt_get_subflow [sfCwndLimited] = (0, some 0) := by
  decide

/-- C10 (amended): within one scheduler instance `min_srtt_us` is
non-increasing and `max_srtt_us` non-decreasing across successive
`get_subflow` calls of both the BLEST and the XLayer variant — the
bounds are only folded with observed per-path RTTs via min/max and are
never reset.  The BLEST init stores the sentinels `U32_MAX` and 0, but
the XLayer init (`kzalloc` plus explicit stores of only the lambda and
the counters) leaves `min_srtt_us = 0`, not `U32_MAX`. -/
theorem rtt_bounds_monotone (msk : Msk) (wr nrr : Int)
    (g : BlestConnData) :
    mptcp_sched_blest_init.min_srtt_us = U32_MAX ∧
    mptcp_sched_blest_init.max_srtt_us = 0 ∧
    mptcp_sched_xlayer_init.min_srtt_us = 0 ∧
    mptcp_sched_xlayer_init.max_srtt_us = 0 ∧
    ((mptcp_sched_blest_get_subflow msk g).g.min_srtt_us ≤ g.min_srtt_us ∧
      g.max_srtt_us ≤ (mptcp_sched_blest_get_subflow msk g).g.max_srtt_us) ∧
    ((mptcp_sched_xlayer_get_subflow msk wr nrr g).g.min_srtt_us ≤
        g.min_srtt_us ∧
      g.max_srtt_us ≤
        (mptcp_sched_xlayer_get_subflow msk wr nrr g).g.max_srtt_us) := by
  obtain ⟨f1, f2, -, -, -, -⟩ := find_min_rtt_go_state msk.subflows.enum
    { g with total_decisions := g.total_decisions + 1 } U32_MAX none
  refine ⟨rfl, rfl, rfl, rfl, ?_, ?_⟩
  · simp only [mptcp_sched_blest_get_subflow, find_min_rtt_subflow]
    split
    · rename_i g' heq
      injection heq with h1 h2
      subst h1
      exact ⟨f1, f2⟩
    · rename_i g' fi heq
      injection heq with h1 h2
      subst h1
      split
      · exact ⟨f1, f2⟩
      · rename_i di hdi
        obtain ⟨u1, u2, -, -⟩ := blest_update_lambda_state
          msk.retrans_stamp (msk.subflows.getD di default).srtt_us msk.now
          (find_min_rtt_go msk.subflows.enum
            { g with total_decisions := g.total_decisions + 1 } U32_MAX
            none).1
        split
        · exact ⟨f1, f2⟩
        · split
          · split
            · exact ⟨le_trans (le_of_eq u1) f1,
                le_trans f2 (le_of_eq u2.symm)⟩
            · exact ⟨le_trans (le_of_eq u1) f1,
                le_trans f2 (le_of_eq u2.symm)⟩
          · exact ⟨f1, f2⟩
  · simp only [mptcp_sched_xlayer_get_subflow, find_min_rtt_subflow]
    split
    · rename_i g' heq
      injection heq with h1 h2
      subst h1
      exact ⟨f1, f2⟩
    · rename_i g' mi heq
      injection heq with h1 h2
      subst h1
      obtain ⟨u1, u2, -, -⟩ := blest_update_lambda_state
        msk.retrans_stamp
        (msk.subflows.getD (xlayer_default_index msk mi) default).srtt_us
        msk.now
        (find_min_rtt_go msk.subflows.enum
          { g with total_decisions := g.total_decisions + 1 } U32_MAX
          none).1
      split
      · split
        · exact ⟨le_trans (le_of_eq u1) f1, le_trans f2 (le_of_eq u2.symm)⟩
        · exact ⟨le_trans (le_of_eq u1) f1, le_trans f2 (le_of_eq u2.symm)⟩
      · exact ⟨f1, f2⟩

/-- Counterexample for C10 as stated: the XLayer scheduler init
(xlayer.c:22-31) never stores the `U32_MAX` sentinel — `kzalloc` leaves
`min_srtt_us = 0` — so an XLayer instance does not start with the
claimed sentinel bounds. -/
theorem rtt_bounds_monotone_cex :
    mptcp_sched_xlayer_init.min_srtt_us = 0 ∧
    mptcp_sched_xlayer_init.min_srtt_us ≠ U32_MAX := by
  decide

/-- C1 (amended): in the BLEST `get_subflow` of the unnamed unit,
whenever the default subflow differs from the minimum-RTT subflow and
the estimated fast-path bytes exceed the available window space, the
call increments `hol_prevented` by exactly 1 and returns `-EAGAIN` with
*no* subflow marked scheduled for this round — it does not select the
fastest subflow. -/
theorem hol_prevention_returns_eagain (msk : Msk) (g0 g1 : BlestConnData)
    (fi di : Nat)
    (hfind : find_min_rtt_subflow msk.subflows
      { g0 with total_decisions := g0.total_decisions + 1 } = (g1, some fi))
    (hdef : mptcp_sched_minrtt_inner msk.subflows = some di)
    (hsock1 : (msk.subflows.getD di default).has_sock = true)
    (hsock2 : (msk.subflows.getD fi default).has_sock = true)
    (hne : di ≠ fi)
    (hhol : blest_hol_risk msk (msk.subflows.getD di default)
      (msk.subflows.getD fi default)
      (blest_update_lambda msk.retrans_stamp
        (msk.subflows.getD di default).srtt_us msk.now g1) = true) :
    (mptcp_sched_blest_get_subflow msk g0).ret = -EAGAIN ∧
    (mptcp_sched_blest_get_subflow msk g0).scheduled = none ∧
    (mptcp_sched_blest_get_subflow msk g0).g.hol_prevented =
      g0.hol_prevented + 1 := by
  have hfind' := hfind
  simp only [find_min_rtt_subflow, Prod.mk.injEq] at hfind'
  obtain ⟨hga, hgb⟩ := hfind'
  have hg1hol : g1.hol_prevented = g0.hol_prevented := by
    have h := (find_min_rtt_go_state msk.subflows.enum
      { g0 with total_decisions := g0.total_decisions + 1 } U32_MAX
      none).2.2.2.2.2
    rw [hga] at h
    exact h
  have hupd := blest_update_lambda_state msk.retrans_stamp
    (msk.subflows.getD di default).srtt_us msk.now g1
  simp only [mptcp_sched_blest_get_subflow, find_min_rtt_subflow]
  rw [hga, hgb, hdef]
  simp only [hsock1, hsock2, Bool.not_true, Bool.or_self, Bool.false_or,
    Bool.false_eq_true, if_false]
  rw [if_pos hne, if_pos hhol]
  refine ⟨rfl, rfl, ?_⟩
  show (blest_update_lambda msk.retrans_stamp
      (msk.subflows.getD di default).srtt_us msk.now g1).hol_prevented + 1 =
    g0.hol_prevented + 1
  rw [hupd.2.2.2, hg1hol]

/-- Witness for C1: on `mskHol` (slow default subflow 0, fast backup
subflow 1, only 10 bytes of window left) the HoL branch fires: `-EAGAIN`,
nothing scheduled, `hol_prevented` goes from 0 to 1. -/
theorem hol_prevention_returns_eagain_witness :
    (mptcp_sched_blest_get_subflow mskHol mptcp_sched_blest_init).ret =
      -EAGAIN ∧
    (mptcp_sched_blest_get_subflow mskHol
      mptcp_sched_blest_init).scheduled = none ∧
    (mptcp_sched_blest_get_subflow mskHol
      mptcp_sched_blest_init).g.hol_prevented =
      mptcp_sched_blest_init.hol_prevented + 1 :=
  hol_prevention_returns_eagain mskHol mptcp_sched_blest_init
    { lambda_1000 := 1200, last_lambda_update := 0, min_srtt_us := 10000,
      max_srtt_us := 100000, total_decisions := 1, hol_prevented := 0 }
    1 0 (by decide) (by decide) (by decide) (by decide) (by decide)
    (by decide)

/-- Counterexample for C1 as stated: on `mskHol` the candidate (default,
index 0) and the fastest (index 1) differ and the fast-path estimate
exceeds the available space, yet the call schedules *no* path — it
returns `-EAGAIN` instead of selecting the fastest. -/
theorem hol_prevention_returns_eagain_cex :
    mptcp_sched_minrtt_inner mskHol.subflows = some 0 ∧
    (find_min_rtt_subflow mskHol.subflows
      { mptcp_sched_blest_init with total_decisions := 1 }).2 = some 1 ∧
    blest_hol_risk mskHol (mskHol.subflows.getD 0 default)
      (mskHol.subflows.getD 1 default)
      (blest_update_lambda mskHol.retrans_stamp
        (mskHol.subflows.getD 0 default).srtt_us mskHol.now
        { lambda_1000 := 1200, last_lambda_update := 0,
          min_srtt_us := 10000, max_srtt_us := 100000,
          total_decisions := 1, hol_prevented := 0 }) = true ∧
    (mptcp_sched_blest_get_subflow mskHol
      mptcp_sched_blest_init).scheduled = none ∧
    (mptcp_sched_blest_get_subflow mskHol mptcp_sched_blest_init).ret =
      -EAGAIN := by
  decide

/-- C4 (amended): in xlayer.c, when both link classes have an available
subflow and both external bitrate metrics are positive, the candidate
(`maxdr_subflow`) is the subflow of the class reporting the higher
bitrate; but for a call in which the *default* (min-RTT-based) subflow
differs from that candidate and no HoL risk is flagged, `get_subflow`
marks the default subflow scheduled — the bitrate candidate serves only
as the fast path of the HoL estimate and is not the one selected. -/
theorem xlayer_schedules_default (msk : Msk) (wr nrr : Int)
    (g0 g1 : BlestConnData) (mi di ci wi ni : Nat)
    (hfind : find_min_rtt_subflow msk.subflows
      { g0 with total_decisions := g0.total_decisions + 1 } = (g1, some mi))
    (hcls : xlayer_classify msk.subflows.enum (none, none) =
      (some wi, some ni))
    (hw : 0 < wr) (hn : 0 < nrr)
    (hdi : xlayer_default_index msk mi = di)
    (hci : xlayer_candidate_index msk wr nrr mi = ci)
    (hsock1 : (msk.subflows.getD di default).has_sock = true)
    (hsock2 : (msk.subflows.getD ci default).has_sock = true)
    (hne : di ≠ ci)
    (hnohol : blest_hol_risk msk (msk.subflows.getD di default)
      (msk.subflows.getD ci default)
      (blest_update_lambda msk.retrans_stamp
        (msk.subflows.getD di default).srtt_us msk.now g1) = false) :
    ci = (if nrr < wr then wi else ni) ∧
    (mptcp_sched_xlayer_get_subflow msk wr nrr g0).ret = 0 ∧
    (mptcp_sched_xlayer_get_subflow msk wr nrr g0).scheduled = some di := by
  have hfind' := hfind
  simp only [find_min_rtt_subflow, Prod.mk.injEq] at hfind'
  obtain ⟨hga, hgb⟩ := hfind'
  refine ⟨?_, ?_⟩
  · rw [← hci]
    simp only [xlayer_candidate_index, hcls, xlayer_maxdr]
    rw [if_pos (by simp [hw, hn])]
  · simp only [mptcp_sched_xlayer_get_subflow, find_min_rtt_subflow]
    rw [hga, hgb]
    split
    · rename_i g' heq
      exact absurd heq (by simp)
    · rename_i g' mi' heq
      injection heq with h1 h2
      injection h2 with h2
      subst h1
      subst h2
      rw [hdi, hci]
      rw [if_pos (by rw [hsock1, hsock2]; simp [hne]),
        if_neg (by rw [hnohol]; simp)]
      exact ⟨rfl, rfl⟩

/-- Witness for C4: on `mskXlayer` with metrics WiFi = 50, cellular =
100, the candidate is the cellular subflow (index 1) yet the scheduled
subflow is the default min-RTT one (index 0). -/
theorem xlayer_schedules_default_witness :
    (1 : Nat) = (if (100 : Int) < 50 then 0 else 1) ∧
    (mptcp_sched_xlayer_get_subflow mskXlayer 50 100
      mptcp_sched_blest_init).ret = 0 ∧
    (mptcp_sched_xlayer_get_subflow mskXlayer 50 100
      mptcp_sched_blest_init).scheduled = some 0 :=
  xlayer_schedules_default mskXlayer 50 100 mptcp_sched_blest_init
    { lambda_1000 := 1200, last_lambda_update := 0, min_srtt_us := 10000,
      max_srtt_us := 100000, total_decisions := 1, hol_prevented := 0 }
    0 0 1 0 1 (by decide) (by decide) (by decide) (by decide) (by decide)
    (by decide) (by decide) (by decide) (by decide) (by decide)

/-- Counterexample for C4 as stated: on `mskXlayer` with metrics WiFi =
50 < cellular = 100 the bitrate candidate is subflow 1, the fastest is
subflow 0, no HoL risk is flagged (`ret = 0`), yet the scheduled subflow
is 0 — the minimum-RTT default — not the candidate. -/
theorem xlayer_schedules_default_cex :
    xlayer_classify mskXlayer.subflows.enum (none, none) =
      (some 0, some 1) ∧
    xlayer_candidate_index mskXlayer 50 100 0 = 1 ∧
    xlayer_default_index mskXlayer 0 = 0 ∧
    (mptcp_sched_xlayer_get_subflow mskXlayer 50 100
      mptcp_sched_blest_init).ret = 0 ∧
    (mptcp_sched_xlayer_get_subflow mskXlayer 50 100
      mptcp_sched_blest_init).scheduled = some 0 ∧
    (some 0 : Option Nat) ≠ some 1 := by
  decide

end Virtk
